import Mathlib

/-!
Formal model of the profile-report analysis pipeline of this repository
(the report generator module) and of the PDF number formatter.

Embedding conventions, used consistently below:

* JavaScript numbers that are used as counts (likes, followers, ...) are
  modelled as `Nat`; the analysis functions receive them after the
  sources `parseInt(x) || 0` coercion, so a `Nat` input field models the
  already-coerced value.
* JavaScript floating-point arithmetic is modelled by exact rational
  arithmetic, encoded over `Nat`/`Int` by cross-multiplication:
  a comparison `a / b < p / q` of non-negative quantities (with `b > 0`)
  is encoded as `q * a < p * b`, and `Math.round(a / b)` as
  `(2 * a + b) / (2 * b)` using floor division, which equals
  `⌊a / b + 1 / 2⌋`.  Decimal literals of the source (0.1, 0.3, 0.5,
  0.7, 0.8) are embedded as the exact rationals they denote.
* JavaScript strings are modelled as `String`; operations are defined
  over the underlying character list so that they reduce inside the
  kernel.  `toLowerCase` is modelled per-character (ASCII); the claims
  do not depend on non-ASCII case folding.
* A JavaScript object field that is absent on one code path (no key) is
  modelled as an `Option` field with `none` on that path; nested objects
  whose key sets differ between code paths are modelled as association
  lists `List (String × JVal)`, so that a missing key is observable.
-/

/-- A JSON-like value: the analysis objects mix numeric, string and
string-list field values between their empty-input and non-empty-input
code paths, so nested objects are modelled as association lists over
this value type. -/
inductive JVal where
  | num (n : Nat)
  | str (s : String)
  | strList (l : List String)
deriving DecidableEq, Repr

/-- Lowercase a string character-wise; models `String.prototype.toLowerCase`
for the ASCII range (the analysis only matches ASCII keywords). -/
def lowerStr (s : String) : String :=
  ⟨s.data.map Char.toLower⟩

/-- Substring test on character lists; models `String.prototype.includes`. -/
def containsSub (hay needle : List Char) : Bool :=
  hay.tails.any (fun t => needle.isPrefixOf t)

/-- Split a character list at every character satisfying `p`; models the
source splitting on the whitespace regex.  The regex collapses runs of
whitespace while this produces empty tokens for them, but every consumer
filters tokens by a minimum length, so the difference is unobservable. -/
def splitOnPred (p : Char → Bool) : List Char → List (List Char)
  | [] => [[]]
  | c :: cs =>
    match splitOnPred p cs with
    | [] => [[]]
    | w :: ws => if p c then [] :: w :: ws else (c :: w) :: ws

/-- Insert `a` into `l`, placing it before the first element `b` with
`le a b`; auxiliary for the stable sort below. -/
def insertBy (le : α → α → Bool) (a : α) : List α → List α
  | [] => [a]
  | b :: bs => if le a b then a :: b :: bs else b :: insertBy le a bs

/-- Stable insertion sort.  Models `Array.prototype.sort` with a
comparator (stable per the ECMAScript specification): an element is
placed before a later element exactly when the comparator orders it
strictly earlier, and ties keep encounter order. -/
def sortBy (le : α → α → Bool) : List α → List α
  | [] => []
  | a :: as => insertBy le a (sortBy le as)

/-- Increment the count of key `k` in an insertion-ordered frequency
association list; models `freq[k] = (freq[k] || 0) + 1` on a plain
object. -/
def incrKey (m : List (String × Nat)) (k : String) : List (String × Nat) :=
  match m with
  | [] => [(k, 1)]
  | (k', v) :: rest => if k' = k then (k', v + 1) :: rest else (k', v) :: incrKey rest k

/-- Numeric value of an all-digit key, auxiliary for the JS property
order below. -/
def keyNumVal (s : String) : Nat :=
  s.data.foldl (fun a c => a * 10 + (c.toNat - 48)) 0

/-- Whether a key is an array-index-like property key (canonical decimal
representation of an integer below 2 ^ 32 - 1); such keys are enumerated
first and in ascending numeric order by `Object.entries`. -/
def isArrayIndexKey (s : String) : Bool :=
  match s.data with
  | [] => false
  | c :: cs =>
    (c :: cs).all Char.isDigit && (!(c == '0') || cs.isEmpty) &&
      decide (keyNumVal s < 4294967295)

/-- Models the enumeration order of `Object.entries` on a plain object
built by insertion: array-index-like keys first in ascending numeric
order, then the remaining keys in insertion order. -/
def jsEntries (m : List (String × Nat)) : List (String × Nat) :=
  sortBy (fun a b => decide (keyNumVal a.1 ≤ keyNumVal b.1))
      (m.filter (fun p => isArrayIndexKey p.1))
    ++ m.filter (fun p => !(isArrayIndexKey p.1))

/-- Value of a digit list, `none` when empty; auxiliary for `parseIntJS`. -/
def digitsToNat (cs : List Char) : Option Nat :=
  match cs with
  | [] => none
  | _ => some (cs.foldl (fun a c => a * 10 + (c.toNat - 48)) 0)

/-- Models `parseInt` on the strings this program feeds it (an optional
minus sign followed by digits and arbitrary trailing text): the leading
integer prefix, or `none` for NaN.  `parseInt` on such input truncates
toward zero, so a fractional rendering such as a percentage string
parses to its integer part. -/
def parseIntJS (s : String) : Option Int :=
  match s.data with
  | '-' :: rest => (digitsToNat (rest.takeWhile Char.isDigit)).map (fun n => -(n : Int))
  | cs => (digitsToNat (cs.takeWhile Char.isDigit)).map (fun n => (n : Int))

/-- Models `Math.round (a / b)` for naturals with `b > 0`:
`Math.round x = ⌊x + 1 / 2⌋`, and `⌊a / b + 1 / 2⌋ = (2 a + b) / (2 b)`
with floor division. -/
def jsRoundDiv (a b : Nat) : Nat :=
  (2 * a + b) / (2 * b)

/-- Left-pad the decimal rendering of `m` with zeros to `f` digits;
auxiliary for the fixed-point renderings below. -/
def padZeros (f : Nat) (m : Nat) : String :=
  let s := toString m
  ⟨List.replicate (f - s.length) '0'⟩ ++ s

/-- Models `(a / b).toFixed f` for a non-negative value (`a, b : Nat`,
`b > 0`, `f > 0`): the ECMAScript `toFixed` picks the integer `n`
closest to `(a / b) * 10 ^ f`, resolving ties upward, which is
`(2 * a * 10 ^ f + b) / (2 * b)` with floor division. -/
def toFixedDivNN (a b : Nat) (f : Nat) : String :=
  let n := (2 * a * 10 ^ f + b) / (2 * b)
  toString (n / 10 ^ f) ++ "." ++ padZeros f (n % 10 ^ f)

/-- Models `(a / b).toFixed f` for a possibly negative numerator
(`b > 0`): `toFixed` formats the absolute value and prefixes a minus
sign when the value is negative. -/
def toFixedDiv (a : Int) (b : Nat) (f : Nat) : String :=
  if a < 0 then "-" ++ toFixedDivNN a.natAbs b f else toFixedDivNN a.natAbs b f

/-- Models `((a / b) * 100).toFixed 1` for naturals, the percentage
rendering used throughout the analysis. -/
def pct1 (a b : Nat) : String :=
  toFixedDivNN (a * 100) b 1

/-- Models `((a / b) * 100).toFixed 1` with a possibly negative
numerator. -/
def pct1I (a : Int) (b : Nat) : String :=
  toFixedDiv (a * 100) b 1

/-- Models the comparison `ratio < p / q` where
`ratio = following > 0 ? followers / following : followers` as in the
source: for `following > 0` this is `q * followers < p * following`,
otherwise `q * followers < p`. -/
def ratioLtFrac (followers following p q : Nat) : Bool :=
  if 0 < following then decide (q * followers < p * following)
  else decide (q * followers < p)

/-- Models the comparison `ratio > p / q` for the same `ratio`. -/
def ratioGtFrac (followers following p q : Nat) : Bool :=
  if 0 < following then decide (p * following < q * followers)
  else decide (p < q * followers)

/-- A scraped post, as consumed by the analysis functions.  `time` is
the parsed timestamp in milliseconds (`none` models a missing or
unparseable date, which the source filters out with `isNaN`);
`length` models the scraped character-count property the source reads
as `t.length`; count fields model the already numeric scraped values. -/
structure Tweet where
  text : String := ""
  time : Option Int := none
  likes : Nat := 0
  retweets : Nat := 0
  replies : Nat := 0
  views : Nat := 0
  hasImage : Bool := false
  hasVideo : Bool := false
  hasLink : Bool := false
  isReply : Bool := false
  isRetweet : Bool := false
  hashtags : List String := []
  mentions : List String := []
  length : Nat := 0
deriving DecidableEq, Repr

/-- The profile snapshot fields the analysis functions read.
`followers` and `following` model the values after the sources
`parseInt(x) || 0` coercion.  `joinAgeDays` models the whole-day
difference `Math.ceil (|now - Date(joinDate)| / 86400000)` computed by
`calculateAccountAge`; `none` models a missing joinDate, the literal
`Not specified`, or an unparseable date (the catch branch). -/
structure ProfileData where
  followers : Nat := 0
  following : Nat := 0
  verified : Bool := false
  joinAgeDays : Option Nat := none
  tweets : List Tweet := []
deriving DecidableEq, Repr

/-- The `interactionRate` object of the non-empty tweet analysis: three
percentage strings. -/
structure InteractionRate where
  original : String
  replies : String
  retweets : String
deriving DecidableEq, Repr

/-- Result of `analyzeTweetsInDepth`.  The empty-input return object of
the source omits the keys `peakHour`, `hashtagFrequency` and
`linkSharingRate`, modelled by `none`; its `mediaUsage` and
`interactionRate` are the number 0 there but a string and an object on
the non-empty path, modelled by `JVal` and by `Option InteractionRate`
with `none` standing for the number 0. -/
structure TweetAnalysis where
  summary : String
  topics : List (String × Nat)
  avgLength : Nat
  mediaUsage : JVal
  interactionRate : Option InteractionRate
  peakHour : Option String
  hashtagFrequency : Option Nat
  linkSharingRate : Option Nat
deriving DecidableEq, Repr

/-- Result of `analyzeBehavior`.  `peakTimes` copies the `peakHour`
field of the tweet analysis, which is absent for an empty tweet list,
hence the `Option`. -/
structure BehaviorAnalysis where
  accountType : String
  activityPattern : String
  postingFrequency : String
  peakTimes : Option String
  consistencyScore : String
deriving DecidableEq, Repr

/-- One entry of the `topTweets` list of the engagement analysis. -/
structure TopTweet where
  text : String
  likes : Nat
  retweets : Nat
  replies : Nat
deriving DecidableEq, Repr

/-- Result of `analyzeEngagement`.  `viralityScore` is the number 0 on
the empty path and a bucket string otherwise, modelled by `JVal`. -/
structure EngagementAnalysis where
  avgEngagement : Nat
  totalEngagement : Nat
  avgLikes : Nat
  avgRetweets : Nat
  avgReplies : Nat
  avgViews : Nat
  engagementRate : String
  viralityScore : JVal
  topTweets : List TopTweet
deriving DecidableEq, Repr

/-- Result of `detectSuspiciousActivity`. -/
structure SuspiciousActivity where
  hasSuspicious : Bool
  riskLevel : String
  flags : List String
  details : List String
deriving DecidableEq, Repr

/-- Result of `analyzeContent`.  The nested objects are association
lists because the source returns them with different key sets on the
empty and non-empty paths (empty objects versus populated ones). -/
structure ContentAnalysis where
  topics : List (String × Nat)
  sentiment : List (String × JVal)
  types : List (String × JVal)
  hashtagStats : List (String × JVal)
  mentionStats : List (String × JVal)
  linkStats : List (String × JVal)
deriving DecidableEq, Repr

/-- Result of `calculateAccountHealth`. -/
structure HealthScore where
  score : Int
  rating : String
  factors : List String
deriving DecidableEq, Repr

/-- The LinkedIn profile fields read by `calculateLinkedInHealth`.
String fields are `none` for null or undefined; `experiences` and
`skills` model the arrays by their presence and length (an array is
always truthy in JavaScript, even when empty, so presence and length
are all the source observes). -/
structure LinkedInData where
  name : Option String := none
  headline : Option String := none
  about : Option String := none
  experiences : Option Nat := none
  skills : Option Nat := none
deriving DecidableEq, Repr

/-- Truthiness of an optional string value: null, undefined and the
empty string are falsy. -/
def optStrTruthy (s : Option String) : Bool :=
  match s with
  | none => false
  | some t => !(t == "")

/-- Length of an optional string, 0 when absent; auxiliary for the
LinkedIn completeness conditions, which only read the length after a
truthiness guard. -/
def optStrLen (s : Option String) : Nat :=
  match s with
  | none => 0
  | some t => t.length

/-- Models `calculateAccountAge` given the whole-day difference
described at `ProfileData.joinAgeDays`: `Unknown` when the date is
unavailable, otherwise a days, months, or years rendering with the
sources thresholds and integer division. -/
def calculateAccountAge (joinAgeDays : Option Nat) : String :=
  match joinAgeDays with
  | none => "Unknown"
  | some d =>
    if d < 30 then toString d ++ " days"
    else if d < 365 then toString (d / 30) ++ " months"
    else toString (d / 365) ++ " years"

/-- Number of elements that are a repeated occurrence of an earlier
element; models the sources count of tweets whose `findIndex` by text
differs from their own index.  The first argument accumulates the texts
already seen. -/
def countDup : List String → List String → Nat
  | _, [] => 0
  | seen, t :: ts => (if t ∈ seen then 1 else 0) + countDup (t :: seen) ts

/-- The risk bucket of `detectSuspiciousActivity` as a function of the
number of flags, exactly the sources conditional expression. -/
def riskLevelOf (n : Nat) : String :=
  if n = 0 then "Low" else if n ≤ 2 then "Medium" else "High"

/-- The detail string pushed by the new-account rule check: true when
`parseInt` of the rendered account age is a number below 30 and the
follower count exceeds 10000 (the source repeats the follower guard
inside the inner condition). -/
def parsedAgeFlag (accountAge : String) (followers : Nat) : Bool :=
  match parseIntJS accountAge with
  | some a => decide (a < 30) && decide (10000 < followers)
  | none => false

/-- The six suspicious-activity rules, in source order.  Each rule that
fires contributes one (flag, detail) pair, mirroring the paired
`flags.push` and `details.push` of the source.  Rules three to five sit
inside the sources `tweets.length >= 5` guard; the fractional
thresholds 0.1, 1000, 0.3, 0.8 and 5 are encoded exactly as explained
in the header. -/
def suspiciousRules (data : ProfileData) : List (String × String) :=
  let followers := data.followers
  let following := data.following
  let tweets := data.tweets
  (if 5000 < following ∧ ratioLtFrac followers following 1 10 then
    [("Unusual following pattern",
      "⚠️ Following significantly more accounts than followers - potential bot behavior or spam account")]
   else [])
  ++ (if 10000 < followers ∧ ratioGtFrac followers following 1000 1 then
    [("Suspicious follower ratio",
      "⚠️ Extremely high follower-to-following ratio - possible bought followers or inactive account")]
   else [])
  ++ (if 5 ≤ tweets.length ∧
        3 * tweets.length < 10 * countDup [] (tweets.map (fun t => t.text)) then
    [("Repetitive content",
      "⚠️ High percentage of duplicate tweets detected - possible spam or automation")]
   else [])
  ++ (if 5 ≤ tweets.length ∧
        4 * tweets.length < 5 * (tweets.filter (fun t => t.hasLink)).length then
    [("Link spam pattern",
      "⚠️ Over 80% of tweets contain links - typical of spam or promotional accounts")]
   else [])
  ++ (if 5 ≤ tweets.length ∧
        5 * tweets.length < tweets.foldl (fun s t => s + t.hashtags.length) 0 then
    [("Hashtag spam",
      "⚠️ Excessive hashtag usage - averaging 5+ hashtags per tweet indicates spam behavior")]
   else [])
  ++ (if calculateAccountAge data.joinAgeDays ≠ "Unknown" ∧ 10000 < followers ∧
        parsedAgeFlag (calculateAccountAge data.joinAgeDays) followers then
    [("Rapid follower growth",
      "⚠️ Very new account with large follower base - potential bought followers")]
   else [])

/-- The tail of `detectSuspiciousActivity`: project the fired rules to
the parallel `flags` and `details` arrays and assemble the result,
substituting the placeholder detail when no rule fired. -/
def mkSuspicious (rules : List (String × String)) : SuspiciousActivity :=
  let flags := rules.map Prod.fst
  let details := rules.map Prod.snd
  { hasSuspicious := decide (0 < flags.length),
    riskLevel := riskLevelOf flags.length,
    flags := flags,
    details := if 0 < details.length then details else ["✅ No suspicious activity detected"] }

/-- Models `detectSuspiciousActivity`.  The sources second parameter
`tweetAnalysis` is never read by the function body and is omitted. -/
def detectSuspiciousActivity (data : ProfileData) : SuspiciousActivity :=
  mkSuspicious (suspiciousRules data)

/-- Models `calculateConsistency`.  The source sorts the valid
timestamps descending, takes consecutive gaps, and buckets the
coefficient of variation `stdDev / avgGap` at 0.5, 1 and 2.  With
`n` gaps, `S` their sum and `Q` their sum of squares, the variance is
`(n * Q - S ^ 2) / n ^ 2` and the average gap `S / n`, so for `S > 0`
the comparison `stdDev / avgGap < c` is exactly
`n * Q - S ^ 2 < c ^ 2 * S ^ 2`, which is how the buckets are encoded
here.  When every gap is zero (`S = 0`) the source divides 0 by 0,
every NaN comparison is false, and the result is `Irregular`. -/
def calculateConsistency (tweets : List Tweet) : String :=
  if tweets.length < 2 then "Insufficient data"
  else
    let ts := sortBy (fun a b => decide (b ≤ a)) (tweets.filterMap (fun t => t.time))
    if ts.length < 2 then "Insufficient data"
    else
      let gaps := (ts.zip ts.tail).map (fun p => p.1 - p.2)
      let n : Int := gaps.length
      let S : Int := gaps.foldl (fun a b => a + b) 0
      let Q : Int := gaps.foldl (fun a g => a + g * g) 0
      let D : Int := n * Q - S * S
      if S = 0 then "Irregular"
      else if 4 * D < S * S then "Very Consistent"
      else if D < S * S then "Consistent"
      else if D < 4 * (S * S) then "Moderate"
      else "Irregular"

/-- Models `analyzeTweetsInDepth`.  The topic extraction lowercases the
joined text, splits on whitespace, keeps words longer than four
characters not starting with `http`, strips characters outside
`[a-z0-9]`, counts the cleaned words longer than four characters, and
takes the ten most frequent (stable sort over the JS property order).
The hour of a timestamp is taken in UTC (`getHours` is local-time; no
claim depends on the hour value).  `original` can in principle go
negative in the source (a post flagged both reply and retweet), so it
is computed in `Int`. -/
def analyzeTweetsInDepth (tweets : List Tweet) : TweetAnalysis :=
  if tweets.length = 0 then
    { summary := "No recent tweets available for analysis"
      topics := []
      avgLength := 0
      mediaUsage := JVal.num 0
      interactionRate := none
      peakHour := none
      hashtagFrequency := none
      linkSharingRate := none }
  else
    let allText := String.intercalate " " (tweets.map (fun t => lowerStr t.text))
    let words := (splitOnPred Char.isWhitespace allText.data).filter
      (fun w => decide (4 < w.length) && !(['h', 't', 't', 'p'].isPrefixOf w))
    let wordFreq := words.foldl
      (fun m w =>
        let cleaned := w.filter
          (fun c => decide (('a' ≤ c ∧ c ≤ 'z') ∨ ('0' ≤ c ∧ c ≤ '9')))
        if 4 < cleaned.length then incrKey m ⟨cleaned⟩ else m)
      []
    let topTopics := (sortBy (fun a b => decide (b.2 ≤ a.2)) (jsEntries wordFreq)).take 10
    let avgLength := jsRoundDiv (tweets.foldl (fun s t => s + t.length) 0) tweets.length
    let mediaUsage := (tweets.filter (fun t => t.hasImage || t.hasVideo)).length
    let mediaPercentage := pct1 mediaUsage tweets.length
    let replies := (tweets.filter (fun t => t.isReply)).length
    let retweets := (tweets.filter (fun t => t.isRetweet)).length
    let original : Int := (tweets.length : Int) - replies - retweets
    let hours := (tweets.filterMap (fun t => t.time)).map
      (fun t => ((t.fdiv 3600000).emod 24).toNat)
    let hourEntries := (List.range 24).filterMap
      (fun h => if 0 < hours.count h then some (h, hours.count h) else none)
    let peak := (sortBy (fun a b => decide (b.2 ≤ a.2)) hourEntries).head?
    { summary := "Account shows "
        ++ (if 7 * (tweets.length : Int) < 10 * original then "high" else "moderate")
        ++ " original content creation with " ++ mediaPercentage ++ "% media usage"
      topics := topTopics
      avgLength := avgLength
      mediaUsage := JVal.str mediaPercentage
      interactionRate := some
        { original := pct1I original tweets.length
          replies := pct1 replies tweets.length
          retweets := pct1 retweets tweets.length }
      peakHour := some (match peak with
        | some p => toString p.1 ++ ":00"
        | none => "Unknown")
      hashtagFrequency := some (tweets.filter (fun t => 0 < t.hashtags.length)).length
      linkSharingRate := some (tweets.filter (fun t => t.hasLink)).length }

/-- Models `analyzeBehavior`: the account-type chain (verified first,
then the follower tiers, then the ratio test), the activity buckets by
tweet count, and the copied-through peak hour and consistency label. -/
def analyzeBehavior (data : ProfileData) (tweetAnalysis : TweetAnalysis) : BehaviorAnalysis :=
  let followers := data.followers
  let following := data.following
  let accountType :=
    if data.verified then "Verified Account"
    else if 1000000 < followers then "Mega Influencer"
    else if 100000 < followers then "Major Influencer"
    else if 10000 < followers then "Micro Influencer"
    else if 1000 < followers then "Active Community Member"
    else if ratioGtFrac followers following 10 1 then "Growing Influencer"
    else "Personal Account"
  let tweetCount := data.tweets.length
  let activityPattern :=
    if 8 ≤ tweetCount then "Very Active"
    else if 5 ≤ tweetCount then "Active"
    else if 2 ≤ tweetCount then "Moderate"
    else if 1 ≤ tweetCount then "Low Activity"
    else "Inactive"
  { accountType := accountType
    activityPattern := activityPattern
    postingFrequency := toString tweetCount ++ " tweets in recent timeline"
    peakTimes := tweetAnalysis.peakHour
    consistencyScore := calculateConsistency data.tweets }

/-- The ranking score of the top-tweet selection:
`likes + retweets * 2 + replies * 3`. -/
def weightedScore (t : Tweet) : Nat :=
  t.likes + t.retweets * 2 + t.replies * 3

/-- Models `analyzeEngagement`.  Totals are reduce-sums of the raw
counts; the five averages divide a total by the number of tweets and
round; the engagement rate divides the rounded average engagement by
the follower count (floored at 1 by the sources `parseInt || 1`) and
renders `* 100` with three decimals; the top tweets are the first three
of a stable sort by `weightedScore` descending, with the text truncated
to 100 characters. -/
def analyzeEngagement (tweets : List Tweet) (followers : Nat) : EngagementAnalysis :=
  if tweets.length = 0 then
    { avgEngagement := 0
      totalEngagement := 0
      avgLikes := 0
      avgRetweets := 0
      avgReplies := 0
      avgViews := 0
      engagementRate := "0%"
      viralityScore := JVal.num 0
      topTweets := [] }
  else
    let totalLikes := tweets.foldl (fun s t => s + t.likes) 0
    let totalRetweets := tweets.foldl (fun s t => s + t.retweets) 0
    let totalReplies := tweets.foldl (fun s t => s + t.replies) 0
    let totalViews := tweets.foldl (fun s t => s + t.views) 0
    let avgLikes := jsRoundDiv totalLikes tweets.length
    let avgRetweets := jsRoundDiv totalRetweets tweets.length
    let avgReplies := jsRoundDiv totalReplies tweets.length
    let avgViews := jsRoundDiv totalViews tweets.length
    let totalEngagement := totalLikes + totalRetweets + totalReplies
    let avgEngagement := jsRoundDiv totalEngagement tweets.length
    let followerCount := if followers = 0 then 1 else followers
    let sortedTweets := (sortBy (fun a b => decide (weightedScore b ≤ weightedScore a)) tweets).take 3
    { avgEngagement := avgEngagement
      totalEngagement := totalEngagement
      avgLikes := avgLikes
      avgRetweets := avgRetweets
      avgReplies := avgReplies
      avgViews := avgViews
      engagementRate := toFixedDivNN (avgEngagement * 100) followerCount 3 ++ "%"
      viralityScore :=
        if 100 < avgRetweets then JVal.str "High"
        else if 10 < avgRetweets then JVal.str "Medium"
        else JVal.str "Low"
      topTweets := sortedTweets.map (fun t =>
        { text := (⟨t.text.data.take 100⟩ : String) ++ "..."
          likes := t.likes
          retweets := t.retweets
          replies := t.replies }) }

/-- The fixed sentiment lexicons of `analyzeContent`. -/
def positiveWords : List String :=
  ["good", "great", "awesome", "love", "excellent", "amazing", "best", "happy"]

/-- The negative lexicon of `analyzeContent`. -/
def negativeWords : List String :=
  ["bad", "hate", "worst", "terrible", "awful", "sad", "angry", "disappointed"]

/-- Models `analyzeContent`.  On the empty path the source returns
empty nested objects (no keys), hence the empty association lists; on
the non-empty path it returns the documented key sets.  Sentiment is
presence-only keyword matching on the lowercased text, a post matching
both lexicons counting as neutral. -/
def analyzeContent (tweets : List Tweet) : ContentAnalysis :=
  if tweets.length = 0 then
    { topics := []
      sentiment := [("positive", JVal.num 0), ("neutral", JVal.num 0), ("negative", JVal.num 0)]
      types := []
      hashtagStats := []
      mentionStats := []
      linkStats := [] }
  else
    let len := tweets.length
    let tyOriginal := (tweets.filter (fun t => !t.isReply && !t.isRetweet)).length
    let tyReplies := (tweets.filter (fun t => t.isReply)).length
    let tyRetweets := (tweets.filter (fun t => t.isRetweet)).length
    let tyWithMedia := (tweets.filter (fun t => t.hasImage || t.hasVideo)).length
    let tyWithLinks := (tweets.filter (fun t => t.hasLink)).length
    let allHashtags := tweets.foldl (fun l t => l ++ t.hashtags) []
    let hashtagFreq := allHashtags.foldl incrKey []
    let topHashtags := (sortBy (fun a b => decide (b.2 ≤ a.2)) (jsEntries hashtagFreq)).take 5
    let allMentions := tweets.foldl (fun l t => l ++ t.mentions) []
    let mentionFreq := allMentions.foldl incrKey []
    let topMentions := (sortBy (fun a b => decide (b.2 ≤ a.2)) (jsEntries mentionFreq)).take 5
    let sentimentCounts := tweets.foldl
      (fun (acc : Nat × Nat × Nat) t =>
        let text := lowerStr t.text
        let hasPositive := positiveWords.any (fun w => containsSub text.data w.data)
        let hasNegative := negativeWords.any (fun w => containsSub text.data w.data)
        if hasPositive && !hasNegative then (acc.1 + 1, acc.2.1, acc.2.2)
        else if hasNegative && !hasPositive then (acc.1, acc.2.1 + 1, acc.2.2)
        else (acc.1, acc.2.1, acc.2.2 + 1))
      (0, 0, 0)
    { topics := []
      sentiment :=
        [("positive", JVal.str (pct1 sentimentCounts.1 len ++ "%")),
         ("neutral", JVal.str (pct1 sentimentCounts.2.2 len ++ "%")),
         ("negative", JVal.str (pct1 sentimentCounts.2.1 len ++ "%"))]
      types :=
        [("original", JVal.num tyOriginal),
         ("replies", JVal.num tyReplies),
         ("retweets", JVal.num tyRetweets),
         ("withMedia", JVal.num tyWithMedia),
         ("withLinks", JVal.num tyWithLinks)]
      hashtagStats :=
        [("total", JVal.num allHashtags.length),
         ("unique", JVal.num hashtagFreq.length),
         ("topHashtags", JVal.strList
            (topHashtags.map (fun p => p.1 ++ " (" ++ toString p.2 ++ ")")))]
      mentionStats :=
        [("total", JVal.num allMentions.length),
         ("unique", JVal.num mentionFreq.length),
         ("topMentions", JVal.strList
            (topMentions.map (fun p => p.1 ++ " (" ++ toString p.2 ++ ")")))]
      linkStats :=
        [("tweetsWithLinks", JVal.num tyWithLinks),
         ("percentage", JVal.str (pct1 tyWithLinks len ++ "%"))] }

/-- Models `calculateAccountHealth`: start at 100, subtract 15 per
suspicious flag, add the verified, activity, original-content and
follower-ratio deltas (the `avgEngagement` variable of the source is
`parseInt` of the `original` interaction-rate string, and the number 0
when the tweet analysis came from an empty list), clamp to [0, 100],
and bucket the rating.  The factor strings are pushed in the same order
and under the same conditions as the score deltas. -/
def calculateAccountHealth (data : ProfileData) (tweetAnalysis : TweetAnalysis)
    (suspiciousActivity : SuspiciousActivity) : HealthScore :=
  let flagCount := suspiciousActivity.flags.length
  let avgEngagement : Int :=
    match tweetAnalysis.interactionRate with
    | some ir => (parseIntJS ir.original).getD 0
    | none => 0
  let rawScore : Int := 100 - (flagCount : Int) * 15
    + (if data.verified then 10 else 0)
    + (if 5 ≤ data.tweets.length then 10 else if data.tweets.length < 2 then -10 else 0)
    + (if 70 < avgEngagement then 15 else 0)
    + (if ratioGtFrac data.followers data.following 2 1 ∧ 100 < data.followers then 10
       else if ratioLtFrac data.followers data.following 1 2 ∧ 1000 < data.following then -10
       else 0)
  let score := max 0 (min 100 rawScore)
  let factors :=
    (if suspiciousActivity.hasSuspicious then
        ["-" ++ toString (flagCount * 15) ++ " points: Suspicious activity detected"]
      else [])
    ++ (if data.verified then ["+10 points: Verified account"] else [])
    ++ (if 5 ≤ data.tweets.length then ["+10 points: Active posting"]
        else if data.tweets.length < 2 then ["-10 points: Low activity"] else [])
    ++ (if 70 < avgEngagement then ["+15 points: High original content ratio"] else [])
    ++ (if ratioGtFrac data.followers data.following 2 1 ∧ 100 < data.followers then
          ["+10 points: Healthy follower ratio"]
        else if ratioLtFrac data.followers data.following 1 2 ∧ 1000 < data.following then
          ["-10 points: Poor follower ratio"]
        else [])
  { score := score
    rating :=
      if 80 ≤ score then "Excellent"
      else if 60 ≤ score then "Good"
      else if 40 ≤ score then "Fair"
      else "Poor"
    factors := if 0 < factors.length then factors else ["Standard account metrics"] }

/-- Models `calculateLinkedInHealth`: a base of 50, six additive
completeness bonuses, capped at 100.  Each condition mirrors the
sources truthiness guard followed by the length test. -/
def calculateLinkedInHealth (data : LinkedInData) : Nat :=
  min
    (50
      + (if optStrTruthy data.name && !(data.name == some "N/A") then 10 else 0)
      + (if optStrTruthy data.headline && decide (10 < optStrLen data.headline) then 10 else 0)
      + (if optStrTruthy data.about && decide (100 < optStrLen data.about) then 10 else 0)
      + (match data.experiences with | none => 0 | some k => if 0 < k then 10 else 0)
      + (match data.experiences with | none => 0 | some k => if 3 ≤ k then 5 else 0)
      + (match data.skills with | none => 0 | some k => if 5 ≤ k then 5 else 0))
    100

/-- Models `Math.abs` on the rational embedding of a JS number. -/
def jsAbs (q : ℚ) : ℚ :=
  if q < 0 then -q else q

/-- Models the default-locale rendering `Number.prototype.toLocaleString`
for a non-negative value below the grouping threshold: at most three
fraction digits (the Intl default), rounded half away from zero, with
trailing zeros stripped.  The actual output is locale-dependent; no
claim inspects this branch beyond its existence. -/
def jsToLocaleStringNN (a b : Nat) : String :=
  let n := (2 * a * 1000 + b) / (2 * b)
  let ip := n / 1000
  let fp := n % 1000
  if fp = 0 then toString ip
  else if fp % 100 = 0 then toString ip ++ "." ++ toString (fp / 100)
  else if fp % 10 = 0 then toString ip ++ "." ++ padZeros 2 (fp / 10)
  else toString ip ++ "." ++ padZeros 3 fp

/-- Sign-aware wrapper for the locale rendering of `q.num / q.den`. -/
def jsToLocaleString (q : ℚ) : String :=
  if q < 0 then "-" ++ jsToLocaleStringNN (-q).num.natAbs (-q).den
  else jsToLocaleStringNN q.num.natAbs q.den

/-- The input of the PDF number formatter after the sources guard
`n === null || n === undefined || isNaN(Number(n))`: null and undefined
map to `nullish`, any value whose `Number` coercion is NaN (a
non-numeric string, an object, NaN itself) maps to `nonNumeric`, and a
finite numeric value is embedded as the exact rational it denotes. -/
inductive JsNumInput where
  | nullish
  | nonNumeric
  | num (q : ℚ)

/-- Models `formatNumber` of the PDF generator: the string `0` for
null, undefined or non-numeric input, otherwise a magnitude-suffixed
fixed-point rendering (`B`, `M`, `K` at 10 ^ 9, 10 ^ 6, 10 ^ 3 of the
absolute value) or the locale rendering below 1000.  With `q = a / b`
the value `q / 10 ^ k` is `a / (b * 10 ^ k)`, which is what the
`toFixedDiv` calls render.  The Lean function is total: no branch can
fail, matching the sources never-throws behavior. -/
def formatNumber (n : JsNumInput) : String :=
  match n with
  | JsNumInput.nullish => "0"
  | JsNumInput.nonNumeric => "0"
  | JsNumInput.num q =>
    if 1000000000 ≤ jsAbs q then toFixedDiv q.num (q.den * 1000000000) 2 ++ "B"
    else if 1000000 ≤ jsAbs q then toFixedDiv q.num (q.den * 1000000) 2 ++ "M"
    else if 1000 ≤ jsAbs q then toFixedDiv q.num (q.den * 1000) 1 ++ "K"
    else jsToLocaleString q

/-- Helper: a foldl-accumulated sum equals the accumulator plus the sum
of the mapped list. -/
theorem foldl_add_eq_sum {α : Type} (f : α → Nat) (l : List α) (a : Nat) :
    l.foldl (fun s t => s + f t) a = a + (l.map f).sum := by
  induction l generalizing a with
  | nil => simp
  | cons t ts ih => simp only [List.foldl_cons, List.map_cons, List.sum_cons, ih]; omega

/-- Helper: mapped sums split over pointwise addition. -/
theorem sum_map_add_split {α : Type} (f g : α → Nat) (l : List α) :
    (l.map (fun t => f t + g t)).sum = (l.map f).sum + (l.map g).sum := by
  induction l with
  | nil => simp
  | cons t ts ih => simp only [List.map_cons, List.sum_cons, ih]; omega

/-- Helper: the clamp used by the account health score stays in
[0, 100]. -/
theorem clampBounds (x : Int) : 0 ≤ max 0 (min 100 x) ∧ max 0 (min 100 x) ≤ 100 := by
  omega

/-- Claim C2 (code bug): the claim says the Rapid follower growth flag
fires exactly when the parseable account age is below 30 days and the
follower count exceeds 10000.  The code renders the age as a string
first and applies `parseInt` to it, so an account 90 days old renders
as `3 months`, parses to 3, and passes the `< 30` test: the flag fires
for an account that is not less than 30 days old, contradicting the
codes own `ageInDays` variable name and its pushed detail text about a
very new account. -/
theorem C2_rapid_growth_fires_at_90_days :
    calculateAccountAge (some 90) = "3 months" ∧
    parseIntJS (calculateAccountAge (some 90)) = some 3 ∧
    "Rapid follower growth" ∈
      (detectSuspiciousActivity
        { followers := 20000, following := 100, verified := false,
          joinAgeDays := some 90, tweets := [] }).flags ∧
    ¬ (90 < 30) := by
  decide

/-- Claim C3 counterexample: an unverified profile with 500 followers
and 10 following has a follower ratio of 50, and the code classifies it
as Growing Influencer, not as the personal account the fixed-tier
classification of the claim dictates. -/
theorem C3_counterexample :
    (analyzeBehavior
        { followers := 500, following := 10, verified := false,
          joinAgeDays := none, tweets := [] }
        (analyzeTweetsInDepth [])).accountType = "Growing Influencer" ∧
    (analyzeBehavior
        { followers := 500, following := 10, verified := false,
          joinAgeDays := none, tweets := [] }
        (analyzeTweetsInDepth [])).accountType ≠ "Personal Account" := by
  decide

/-- Claim C1 counterexample: for the empty post list the content
analysis returns an empty `types` object, omitting the `original` key
that the non-empty case documents (a single default post shows the key
present there), so not every field documented for the non-empty case is
present on the empty path. -/
theorem C1_counterexample :
    (analyzeContent []).types.lookup "original" = none ∧
    (analyzeContent [({} : Tweet)]).types.lookup "original" = some (JVal.num 1) := by
  decide

/-- Claim C3, amended: the account type is classified by the fixed
follower tiers and overridden to Verified Account when verified, as
claimed, except that an unverified account with at most 1000 followers
whose follower-to-following ratio exceeds 10 is classified Growing
Influencer; Personal Account is the default only when that ratio test
also fails. -/
theorem C3_accountType_characterization (p : ProfileData) (ta : TweetAnalysis) :
    ((analyzeBehavior p ta).accountType = "Verified Account" ↔ p.verified = true) ∧
    ((analyzeBehavior p ta).accountType = "Mega Influencer" ↔
      p.verified = false ∧ 1000000 < p.followers) ∧
    ((analyzeBehavior p ta).accountType = "Major Influencer" ↔
      p.verified = false ∧ 100000 < p.followers ∧ p.followers ≤ 1000000) ∧
    ((analyzeBehavior p ta).accountType = "Micro Influencer" ↔
      p.verified = false ∧ 10000 < p.followers ∧ p.followers ≤ 100000) ∧
    ((analyzeBehavior p ta).accountType = "Active Community Member" ↔
      p.verified = false ∧ 1000 < p.followers ∧ p.followers ≤ 10000) ∧
    ((analyzeBehavior p ta).accountType = "Growing Influencer" ↔
      p.verified = false ∧ p.followers ≤ 1000 ∧
        ratioGtFrac p.followers p.following 10 1 = true) ∧
    ((analyzeBehavior p ta).accountType = "Personal Account" ↔
      p.verified = false ∧ p.followers ≤ 1000 ∧
        ratioGtFrac p.followers p.following 10 1 = false) := by
  unfold analyzeBehavior
  dsimp only
  split_ifs with h1 h2 h3 h4 h5 h6 <;> simp_all <;> omega

/-- Claim C4: for every input (in particular every reachable
combination of rule triggers) the account health score lies in
[0, 100]: the source clamps the accumulated score with
`Math.max(0, Math.min(100, score))`. -/
theorem C4_healthScore_bounds (data : ProfileData) (ta : TweetAnalysis)
    (sa : SuspiciousActivity) :
    0 ≤ (calculateAccountHealth data ta sa).score ∧
      (calculateAccountHealth data ta sa).score ≤ 100 :=
  clampBounds _

/-- Claim C5: the risk level of the suspicious-activity report is a
pure function of the number of flags, and that function is High
exactly for three or more flags, Medium exactly for one or two, and
Low exactly for zero. -/
theorem C5_riskLevel_pure_in_flag_count (p : ProfileData) :
    (detectSuspiciousActivity p).riskLevel =
      riskLevelOf (detectSuspiciousActivity p).flags.length ∧
    ∀ n : Nat,
      (riskLevelOf n = "High" ↔ 3 ≤ n) ∧
      (riskLevelOf n = "Medium" ↔ 1 ≤ n ∧ n ≤ 2) ∧
      (riskLevelOf n = "Low" ↔ n = 0) := by
  refine ⟨rfl, fun n => ?_⟩
  unfold riskLevelOf
  split_ifs with h1 h2 <;>
    refine ⟨?_, ?_, ?_⟩ <;>
    first
      | exact iff_of_true rfl (by omega)
      | exact iff_of_false (by decide) (by omega)

/-- Claim C8: the suspicious-activity report always carries a non-empty
details list, the single placeholder entry exactly when no flag fired,
and `hasSuspicious` is true exactly when some flag fired. -/
theorem C8_details_and_placeholder (p : ProfileData) :
    (detectSuspiciousActivity p).details ≠ [] ∧
    ((detectSuspiciousActivity p).flags = [] →
      (detectSuspiciousActivity p).details = ["✅ No suspicious activity detected"]) ∧
    ((detectSuspiciousActivity p).hasSuspicious = true ↔
      (detectSuspiciousActivity p).flags ≠ []) := by
  unfold detectSuspiciousActivity
  generalize suspiciousRules p = rules
  cases rules with
  | nil => simp [mkSuspicious]
  | cons r rs => simp [mkSuspicious]


/-- Claim C1, amended: for an empty post list every sub-function
returns without error; the engagement analysis returns its fully
populated zero/default structure, the behavior analysis returns its
documented defaults except that its `peakTimes` field is the absent
`peakHour` key of the empty tweet analysis, the suspicious-activity
detection fires none of the post-based rules and always returns a
non-empty details list, and the content analysis returns all six
top-level fields but with empty nested `types`, `hashtagStats`,
`mentionStats` and `linkStats` objects, omitting the keys documented
for the non-empty case. -/
theorem C1_empty_sub_reports (p : ProfileData) (hp : p.tweets = []) :
    analyzeContent p.tweets =
      { topics := []
        sentiment := [("positive", JVal.num 0), ("neutral", JVal.num 0),
          ("negative", JVal.num 0)]
        types := []
        hashtagStats := []
        mentionStats := []
        linkStats := [] } ∧
    analyzeEngagement p.tweets p.followers =
      { avgEngagement := 0, totalEngagement := 0, avgLikes := 0, avgRetweets := 0,
        avgReplies := 0, avgViews := 0, engagementRate := "0%",
        viralityScore := JVal.num 0, topTweets := [] } ∧
    (analyzeBehavior p (analyzeTweetsInDepth p.tweets)).activityPattern = "Inactive" ∧
    (analyzeBehavior p (analyzeTweetsInDepth p.tweets)).postingFrequency =
      "0 tweets in recent timeline" ∧
    (analyzeBehavior p (analyzeTweetsInDepth p.tweets)).consistencyScore =
      "Insufficient data" ∧
    (analyzeBehavior p (analyzeTweetsInDepth p.tweets)).peakTimes = none ∧
    "Repetitive content" ∉ (detectSuspiciousActivity p).flags ∧
    "Link spam pattern" ∉ (detectSuspiciousActivity p).flags ∧
    "Hashtag spam" ∉ (detectSuspiciousActivity p).flags ∧
    (detectSuspiciousActivity p).details ≠ [] := by
  obtain ⟨fw, fg, vf, jd, tw⟩ := p
  dsimp only at hp ⊢
  subst hp
  refine ⟨rfl, rfl, rfl, ?_, rfl, rfl, ?_, ?_, ?_, ?_⟩
  · show toString (0 : Nat) ++ " tweets in recent timeline" = "0 tweets in recent timeline"
    decide
  all_goals try simp [detectSuspiciousActivity, mkSuspicious, suspiciousRules]
  all_goals try (split_ifs <;> simp_all)

/-- Witness for claim C1: the amended theorem applied to a concrete
verified profile with an empty tweet list. -/
theorem C1_empty_sub_reports_witness :
    analyzeContent (ProfileData.mk 42 7 true (some 5) []).tweets =
      { topics := []
        sentiment := [("positive", JVal.num 0), ("neutral", JVal.num 0),
          ("negative", JVal.num 0)]
        types := []
        hashtagStats := []
        mentionStats := []
        linkStats := [] } ∧
    (detectSuspiciousActivity (ProfileData.mk 42 7 true (some 5) [])).details ≠ [] :=
  ⟨(C1_empty_sub_reports (ProfileData.mk 42 7 true (some 5) []) rfl).1,
   (C1_empty_sub_reports (ProfileData.mk 42 7 true (some 5) []) rfl).2.2.2.2.2.2.2.2.2⟩

/-- Claim C6: any profile with 200 followers, 20000 following and ten
posts that all contain links trips the following-pattern rule and the
link-spam rule, whatever the remaining post contents, and with at least
two flags fired the risk level is Medium or High. -/
theorem C6_spam_profile_flags (p : ProfileData)
    (h1 : p.followers = 200) (h2 : p.following = 20000)
    (h3 : p.tweets.length = 10) (h4 : ∀ t ∈ p.tweets, t.hasLink = true) :
    "Unusual following pattern" ∈ (detectSuspiciousActivity p).flags ∧
    "Link spam pattern" ∈ (detectSuspiciousActivity p).flags ∧
    ((detectSuspiciousActivity p).riskLevel = "Medium" ∨
      (detectSuspiciousActivity p).riskLevel = "High") := by
  obtain ⟨fw, fg, vf, jd, tw⟩ := p
  dsimp only at h1 h2 h3 h4 ⊢
  subst h1
  subst h2
  have hlink : (tw.filter (fun t => t.hasLink)).length = 10 := by
    rw [List.filter_eq_self.mpr h4, h3]
  simp [detectSuspiciousActivity, mkSuspicious, suspiciousRules, h3, hlink,
    ratioLtFrac, ratioGtFrac]
  split_ifs <;> simp_all [riskLevelOf]

/-- Concrete input for the claim C6 witness: ten identical link-bearing
posts. -/
def c6Profile : ProfileData :=
  { followers := 200, following := 20000, verified := false, joinAgeDays := none,
    tweets := List.replicate 10 ({ hasLink := true } : Tweet) }

/-- Witness for claim C6: the theorem applied to the concrete profile,
its hypotheses discharged by evaluation. -/
theorem C6_spam_profile_flags_witness :
    "Unusual following pattern" ∈ (detectSuspiciousActivity c6Profile).flags ∧
    "Link spam pattern" ∈ (detectSuspiciousActivity c6Profile).flags ∧
    ((detectSuspiciousActivity c6Profile).riskLevel = "Medium" ∨
      (detectSuspiciousActivity c6Profile).riskLevel = "High") :=
  C6_spam_profile_flags c6Profile rfl rfl (by decide) (by decide)

/-- Spec-side definition for claim C7, written from the claims words:
the rounded unweighted per-post mean of a raw count. -/
def unweightedMeanRounded (f : Tweet → Nat) (tweets : List Tweet) : Nat :=
  jsRoundDiv ((tweets.map f).sum) tweets.length

/-- Claim C7: for every non-empty tweet list the five engagement
averages are the rounded unweighted per-post means of the raw counts
(the average total engagement summing likes, retweets and replies per
post), and the weighted score enters only the top-performing selection,
which is the first three of the stable sort by `weightedScore`. -/
theorem C7_averages_unweighted (tweets : List Tweet) (followers : Nat) (h : tweets ≠ []) :
    (analyzeEngagement tweets followers).avgLikes =
      unweightedMeanRounded (fun t => t.likes) tweets ∧
    (analyzeEngagement tweets followers).avgRetweets =
      unweightedMeanRounded (fun t => t.retweets) tweets ∧
    (analyzeEngagement tweets followers).avgReplies =
      unweightedMeanRounded (fun t => t.replies) tweets ∧
    (analyzeEngagement tweets followers).avgViews =
      unweightedMeanRounded (fun t => t.views) tweets ∧
    (analyzeEngagement tweets followers).avgEngagement =
      unweightedMeanRounded (fun t => t.likes + t.retweets + t.replies) tweets ∧
    (analyzeEngagement tweets followers).totalEngagement =
      (tweets.map (fun t => t.likes + t.retweets + t.replies)).sum ∧
    (analyzeEngagement tweets followers).topTweets =
      ((sortBy (fun a b => decide (weightedScore b ≤ weightedScore a)) tweets).take 3).map
        (fun t => { text := (⟨t.text.data.take 100⟩ : String) ++ "..."
                    likes := t.likes, retweets := t.retweets, replies := t.replies }) := by
  have hne : ¬ tweets.length = 0 := by simpa [List.length_eq_zero] using h
  unfold analyzeEngagement
  rw [if_neg hne]
  dsimp only
  refine ⟨?_, ?_, ?_, ?_, ?_, ?_, rfl⟩ <;>
    simp [unweightedMeanRounded, foldl_add_eq_sum, sum_map_add_split]

/-- Concrete input for the claim C7 witness. -/
def c7Tweets : List Tweet :=
  [{ text := "hello world", likes := 10, retweets := 3, replies := 1, views := 100 },
   { text := "second tweet", likes := 1 }]

/-- Witness for claim C7: two average components of the theorem at a
concrete two-post list, the non-emptiness hypothesis discharged by
evaluation. -/
theorem C7_averages_unweighted_witness :
    (analyzeEngagement c7Tweets 50).avgLikes =
      unweightedMeanRounded (fun t => t.likes) c7Tweets ∧
    (analyzeEngagement c7Tweets 50).avgEngagement =
      unweightedMeanRounded (fun t => t.likes + t.retweets + t.replies) c7Tweets :=
  ⟨(C7_averages_unweighted c7Tweets 50 (by decide)).1,
   (C7_averages_unweighted c7Tweets 50 (by decide)).2.2.2.2.1⟩

/-- Witness for claim C8: the theorem applied to the default profile,
on which no rule fires, so the details list is exactly the placeholder;
the flag-emptiness hypothesis is discharged by evaluation. -/
theorem C8_details_and_placeholder_witness :
    (detectSuspiciousActivity ({} : ProfileData)).details =
      ["✅ No suspicious activity detected"] ∧
    (detectSuspiciousActivity ({} : ProfileData)).details ≠ [] :=
  ⟨(C8_details_and_placeholder ({} : ProfileData)).2.1 (by decide),
   (C8_details_and_placeholder ({} : ProfileData)).1⟩

/-- Claim C9: for every LinkedIn profile input the LinkedIn health
score lies in [50, 100]: it starts at 50, every completeness rule only
adds, and the total is capped at 100. -/
theorem C9_linkedin_bounds (d : LinkedInData) :
    50 ≤ calculateLinkedInHealth d ∧ calculateLinkedInHealth d ≤ 100 := by
  unfold calculateLinkedInHealth
  constructor
  · refine Nat.le_min.mpr ⟨?_, by omega⟩
    omega
  · exact Nat.min_le_right _ _

/-- Claim C10: the PDF number formatter is total (the Lean embedding is
a total function, matching the sources never-throws behavior), returns
the string 0 for null, undefined and non-numeric input, and above the
magnitude thresholds of the absolute value produces a string carrying
the matching B, M or K suffix; `jsAbs` agrees with the mathematical
absolute value. -/
theorem C10_formatNumber_total (q : ℚ) :
    formatNumber JsNumInput.nullish = "0" ∧
    formatNumber JsNumInput.nonNumeric = "0" ∧
    jsAbs q = |q| ∧
    ((1000000000 : ℚ) ≤ jsAbs q →
      ∃ s, formatNumber (JsNumInput.num q) = s ++ "B") ∧
    ((1000000 : ℚ) ≤ jsAbs q ∧ jsAbs q < 1000000000 →
      ∃ s, formatNumber (JsNumInput.num q) = s ++ "M") ∧
    ((1000 : ℚ) ≤ jsAbs q ∧ jsAbs q < 1000000 →
      ∃ s, formatNumber (JsNumInput.num q) = s ++ "K") := by
  refine ⟨rfl, rfl, ?_, ?_, ?_, ?_⟩
  · unfold jsAbs
    split_ifs with hq
    · exact (abs_of_neg hq).symm
    · exact (abs_of_nonneg (not_lt.mp hq)).symm
  · intro h
    exact ⟨_, by simp only [formatNumber]; rw [if_pos h]⟩
  · rintro ⟨hlo, hhi⟩
    exact ⟨_, by simp only [formatNumber]; rw [if_neg (not_le.mpr hhi), if_pos hlo]⟩
  · rintro ⟨hlo, hhi⟩
    exact ⟨_, by
      simp only [formatNumber]
      rw [if_neg (not_le.mpr (hhi.trans (by norm_num))), if_neg (not_le.mpr hhi), if_pos hlo]⟩

/-- Witness for claim C10: the theorem applied at the concrete value
2500000000, the magnitude hypothesis discharged by evaluation. -/
theorem C10_formatNumber_total_witness :
    (1000000000 : ℚ) ≤ jsAbs 2500000000 ∧
    (∃ s, formatNumber (JsNumInput.num 2500000000) = s ++ "B") :=
  ⟨by decide, (C10_formatNumber_total 2500000000).2.2.2.1 (by decide)⟩
